import Mathlib

set_option autoImplicit false

namespace ProdCal

/-!
Shallow embedding of `src/production_calendar.py` (classes `DateInfo` and
`ProcessCalendar`).

Modelling conventions, chosen to mirror the Python source:

* Python `dict`s keyed by year or month become association lists
  (`List (key × value)`) with first-match lookup (`alookup`), in-place key
  assignment (`aset`, which preserves insertion order exactly as CPython
  does) and `dict.update` (`aupdate`).
* The JSON cache file serializes the year/month keys as decimal text and the
  source normalizes them back with `int(k)` (`__write_cache_json` line 133,
  `__read_cache_json` lines 154 and 157) and looks years up via `str(year)`.
  Python's `str`/`int` round trip is the identity on these canonical decimal
  keys, so the persisted mapping is modelled directly with `Nat` keys; the
  normalization comprehensions are therefore the identity in the model.
  `json.dump(..., sort_keys=True)` only affects textual key order, not the
  mapping, and is not modelled.
* A cache file is `absent` (fails the `os.path.exists` checks at lines 127
  and 149), `malformed` (exists but its content is not a valid JSON value —
  e.g. a zero-length file — so `json.load` at line 133 or 153 raises
  `json.JSONDecodeError`), or `stored s` (a valid JSON object holding the
  mapping `s`).
* The network transport (`urllib.request.urlopen` and the subsequent
  `response.read().decode('utf-8')` of line 73) and the regex layer
  (`re.Pattern.findall` applied to the four compiled patterns of `__init__`)
  are the external collaborators of the program; they enter as the function
  fields of `Env`.  The `try` of lines 67-71 guards only the `urlopen`
  call, so `FetchResult` distinguishes an exception raised by `urlopen`
  itself (caught) from a response whose body read or decode raises
  (uncaught, escaping `__get_html`).  `findPre`, `findWeekend` and
  `findHoliday` stand for `pattern.findall` composed with `map int` as at
  lines 88-90.
* A raised Python exception is an `Except.error`; mutations of `self._dict`
  performed before the raise survive, so the stateful entry points return
  the new state next to the possible error.
-/

/-- Mirrors class `DateInfo` (lines 9-28): four boolean flags; `__init__`
sets all of them to `False` before `date_info` fills them in. -/
structure DateInfo where
  is_work : Bool
  is_short : Bool
  is_holiday : Bool
  is_weekend : Bool
deriving DecidableEq

/-- One month's value in `self._dict[year]` (lines 87-91): the three tuples
of day-of-month integers extracted from one `<table class="cal">` block. -/
structure MonthData where
  pre_holidays : List Nat
  weekends : List Nat
  holidays : List Nat
deriving DecidableEq

/-- `self._dict[year]`: month number (1-based) to `MonthData`. -/
abbrev YearData : Type := List (Nat × MonthData)

/-- `self._dict`: year to `YearData`. -/
abbrev Dict : Type := List (Nat × YearData)

/-- First-match association-list lookup: `d.get(k)` / `d[k]` on a Python
dict (which holds each key at most once). -/
def alookup {α β : Type} [DecidableEq α] (k : α) : List (α × β) → Option β
  | [] => none
  | p :: t => if p.1 = k then some p.2 else alookup k t

/-- `d[k] = v` on a Python dict: overwrite in place if the key exists,
append otherwise (CPython preserves insertion order). -/
def aset {α β : Type} [DecidableEq α] (k : α) (v : β) : List (α × β) → List (α × β)
  | [] => [(k, v)]
  | p :: t => if p.1 = k then (k, v) :: t else p :: aset k v t

/-- `base.update(upd)` on Python dicts: assign every pair of `upd` into
`base`, left to right. -/
def aupdate {α β : Type} [DecidableEq α] (base : List (α × β)) : List (α × β) → List (α × β)
  | [] => base
  | p :: t => aupdate (aset p.1 p.2 base) t

/-- Outcome of one `urlopen` call at line 68.  `err` is an exception raised
by `urlopen` itself (transport, certificate, protocol, HTTP error for an
unsupported year, ...), which lines 69-71 catch.  `ok body` is a returned
response handle, where `body` is the outcome of
`response.read().decode('utf-8')` at line 73 — a call that sits outside the
`try` of lines 67-71: `.error e` when the body read or the decode raises
(that exception escapes `__get_html` uncaught), `.ok html` when it yields
the decoded document. -/
inductive FetchResult where
  | err (msg : String)
  | ok (body : Except String String)

/-- The external collaborators of `ProcessCalendar`: the network transport
and the `findall` results of the four compiled regex patterns (the markup
grammar, a pluggable extraction boundary).  The three day-set fields already
include the `map(int, ...)` of lines 88-90. -/
structure Env where
  urlopen : String → FetchResult
  findTables : String → List String
  findPre : String → List Nat
  findWeekend : String → List Nat
  findHoliday : String → List Nat

/-- `self._url_template` (line 46). -/
def url_template : String := "https://www.consultant.ru/law/ref/calendar/proizvodstvennye/"

/-- The URL `__get_html` builds for a year (line 63). -/
def year_url (year : Nat) : String := url_template ++ toString year ++ "/"

/-- State of the persisted cache file `production_calendar_cache.json`. -/
inductive CacheFile where
  | absent
  | malformed
  | stored (s : Dict)
deriving DecidableEq

/-- The message `json.load` raises on content that is not a valid JSON
value, e.g. a zero-length file. -/
def jsonDecodeError : String := "JSONDecodeError: Expecting value"

/-- The mutable state of one `ProcessCalendar` instance: `self._dict` plus
the shared cache file it reads and writes. -/
structure CalState where
  dict : Dict
  file : CacheFile
deriving DecidableEq

/-- `__get_html` (lines 53-73): build the year URL and call `urlopen`.
Only that call is guarded by the `try` of lines 67-71, so an exception from
it is caught, printed (second component: the log) and turned into `None`.
The `response.read().decode('utf-8')` of line 73 is outside the `try`:
when it raises, the exception escapes `__get_html` (`Except.error`). -/
def get_html (env : Env) (year : Nat) : Except String (Option String × List String) :=
  match env.urlopen (year_url year) with
  | .err e => .ok (none, [e])
  | .ok (.error e) => .error e
  | .ok (.ok h) => .ok (some h, [])

/-- The loop of lines 86-91: `for month, table in enumerate(findall)` writes
`self._dict[year][month + 1] = {...}`; `month` is the 0-based position. -/
def buildMonths (env : Env) (month : Nat) : List String → YearData
  | [] => []
  | table :: rest =>
      (month + 1, MonthData.mk (env.findPre table) (env.findWeekend table) (env.findHoliday table))
        :: buildMonths env (month + 1) rest

/-- `__get_year_data` (lines 75-91): `self._dict[year] = dict()` first, then
fetch; a read/decode exception escaping `__get_html` propagates out of
`__get_year_data` too (second component), with the line-82 mutation kept.
Only a truthy (non-`None`, non-empty) document is parsed.  The loop assigns
the distinct keys `1..k` into the fresh empty dict, which is exactly
`buildMonths env 0 tables`. -/
def get_year_data (env : Env) (st : CalState) (year : Nat) : CalState × Option String :=
  let d0 := aset year [] st.dict
  match get_html env year with
  | .error e => (CalState.mk d0 st.file, some e)
  | .ok (none, _) => (CalState.mk d0 st.file, none)
  | .ok (some html, _) =>
      if html = "" then (CalState.mk d0 st.file, none)
      else (CalState.mk (aset year (buildMonths env 0 (env.findTables html)) d0) st.file, none)

/-- `__write_cache_json` (lines 122-137): create the file holding `_dict`
when absent; otherwise `json.load` the existing mapping (raising on invalid
content), `cache.update(self._dict)`, and rewrite the merged mapping in
full.  Returns the new file state or the raised error. -/
def write_cache_json (st : CalState) : Except String CacheFile :=
  match st.file with
  | .absent => .ok (.stored st.dict)
  | .malformed => .error jsonDecodeError
  | .stored cache => .ok (.stored (aupdate cache st.dict))

/-- `__read_cache_json` (lines 139-158): `False` when the file is absent;
`json.load` raises on invalid content; `if not data.get(str(year))` treats a
missing year and a year mapped to an empty dict alike as a miss (`False`);
on a hit the year's data is promoted into `self._dict` and `True` is
returned. -/
def read_cache_json (st : CalState) (year : Nat) : Except String (Bool × CalState) :=
  match st.file with
  | .absent => .ok (false, st)
  | .malformed => .error jsonDecodeError
  | .stored data =>
      match alookup year data with
      | none => .ok (false, st)
      | some yd =>
          if yd = [] then .ok (false, st)
          else .ok (true, CalState.mk (aset year yd st.dict) st.file)

/-- Lines 109-118 of `date_info`: first-match-wins precedence of the three
day sets for the queried day of month. -/
def classify_day (md : MonthData) (day : Nat) : DateInfo :=
  if md.pre_holidays.contains day then DateInfo.mk true true false false
  else if md.holidays.contains day then DateInfo.mk false false true true
  else if md.weekends.contains day then DateInfo.mk false false false true
  else DateInfo.mk true false false false

/-- The naive calendar date carried by the queried `datetime`. -/
structure PyDate where
  year : Nat
  month : Nat
  day : Nat
deriving DecidableEq

/-- Lines 106-107 of `date_info`, after a cache miss: fetch and extract,
then persist.  An exception raised inside `__get_year_data` (the uncaught
body-read error) propagates before `__write_cache_json` runs; the line-82
mutation survives. -/
def resolve_miss (env : Env) (st : CalState) (year : Nat) : CalState × Option String :=
  match get_year_data env st year with
  | (st2, some e) => (st2, some e)
  | (st2, none) =>
      match write_cache_json st2 with
      | .error e => (st2, some e)
      | .ok f => (CalState.mk st2.dict f, none)

/-- Lines 104-107 of `date_info`: when `self._dict.get(dt.year) is None`,
try the cache file, else fetch, extract and persist.  Second component:
the error propagating out of the block, if any; the state reflects every
mutation made before the raise. -/
def resolve_year (env : Env) (st : CalState) (dt : PyDate) : CalState × Option String :=
  match alookup dt.year st.dict with
  | some _ => (st, none)
  | none =>
      match read_cache_json st dt.year with
      | .error e => (st, some e)
      | .ok (true, st1) => (st1, none)
      | .ok (false, st1) => resolve_miss env st1 dt.year

/-- `date_info` (lines 93-120): resolve the year, then index
`self._dict[dt.year][dt.month]` (a missing key raises `KeyError`) and apply
the precedence of lines 109-118 to `dt.day`. -/
def date_info (env : Env) (st : CalState) (dt : PyDate) : CalState × Except String DateInfo :=
  match resolve_year env st dt with
  | (st1, some e) => (st1, .error e)
  | (st1, none) =>
      match alookup dt.year st1.dict with
      | none => (st1, .error "KeyError")
      | some yd =>
          match alookup dt.month yd with
          | none => (st1, .error "KeyError")
          | some md => (st1, .ok (classify_day md dt.day))

/-- The loop of lines 167-168: an exception raised inside `__get_year_data`
aborts the loop, keeping the mutations made so far. -/
def pre_cache_loop (env : Env) (st : CalState) : List Nat → CalState × Option String
  | [] => (st, none)
  | y :: rest =>
      match get_year_data env st y with
      | (st1, some e) => (st1, some e)
      | (st1, none) => pre_cache_loop env st1 rest

/-- `pre_cache_json` (lines 160-170): unconditionally re-fetch every given
year, then persist the whole in-memory state once; an exception from the
loop skips the write and propagates. -/
def pre_cache_json (env : Env) (st : CalState) (years : List Nat) : CalState × Option String :=
  match pre_cache_loop env st years with
  | (st1, some e) => (st1, some e)
  | (st1, none) =>
      match write_cache_json st1 with
      | .error e => (st1, some e)
      | .ok f => (CalState.mk st1.dict f, none)

/-! ### Association-list laws -/

theorem alookup_aset_self {α β : Type} [DecidableEq α] (k : α) (v : β) (l : List (α × β)) :
    alookup k (aset k v l) = some v := by
  induction l with
  | nil => simp [aset, alookup]
  | cons p t ih =>
      by_cases h : p.1 = k
      · simp [aset, h, alookup]
      · simp [aset, h, alookup, ih]

theorem alookup_aset_of_ne {α β : Type} [DecidableEq α] {k k' : α} (v : β) (l : List (α × β))
    (h : k' ≠ k) : alookup k' (aset k v l) = alookup k' l := by
  have hk : ¬(k = k') := fun hh => h hh.symm
  induction l with
  | nil => simp [aset, alookup, hk]
  | cons p t ih =>
      by_cases hp : p.1 = k
      · rw [show aset k v (p :: t) = (k, v) :: t from by simp [aset, hp]]
        simp [alookup, hk, hp]
      · rw [show aset k v (p :: t) = p :: aset k v t from by simp [aset, hp]]
        simp [alookup, ih]

theorem alookup_eq_none_iff {α β : Type} [DecidableEq α] (k : α) (l : List (α × β)) :
    alookup k l = none ↔ k ∉ l.map Prod.fst := by
  induction l with
  | nil => simp [alookup]
  | cons p t ih =>
      by_cases h : p.1 = k
      · simp [alookup, h]
      · have hk : ¬(k = p.1) := fun hh => h hh.symm
        rw [show alookup k (p :: t) = alookup k t from by simp [alookup, h], ih]
        simp only [List.map_cons, List.mem_cons]
        tauto

theorem alookup_aupdate_of_none {α β : Type} [DecidableEq α] {k : α} {u : List (α × β)}
    (base : List (α × β)) (h : alookup k u = none) :
    alookup k (aupdate base u) = alookup k base := by
  induction u generalizing base with
  | nil => simp [aupdate]
  | cons p t ih =>
      simp only [alookup] at h
      by_cases hp : p.1 = k
      · simp [hp] at h
      · simp only [hp, if_false] at h
        simp only [aupdate]
        rw [ih _ h, alookup_aset_of_ne _ _ (fun hh => hp hh.symm)]

theorem alookup_aupdate_of_some {α β : Type} [DecidableEq α] {k : α} {u : List (α × β)} {v : β}
    (base : List (α × β)) (hnd : (u.map Prod.fst).Nodup) (h : alookup k u = some v) :
    alookup k (aupdate base u) = some v := by
  induction u generalizing base with
  | nil => simp [alookup] at h
  | cons p t ih =>
      simp only [List.map_cons, List.nodup_cons] at hnd
      simp only [alookup] at h
      by_cases hp : p.1 = k
      · simp only [hp, if_true, Option.some.injEq] at h
        subst h
        have ht : alookup k t = none := by
          rw [alookup_eq_none_iff]
          rw [hp] at hnd
          exact hnd.1
        simp only [aupdate]
        rw [alookup_aupdate_of_none _ ht, hp, alookup_aset_self]
      · simp only [hp, if_false] at h
        simp only [aupdate]
        exact ih _ hnd.2 h

/-! ### Structure of the extracted year data -/

theorem buildMonths_keys (env : Env) (ts : List String) :
    ∀ i, (buildMonths env i ts).map Prod.fst = List.range' (i + 1) ts.length := by
  induction ts with
  | nil => intro i; simp [buildMonths]
  | cons t rest ih =>
      intro i
      simp [buildMonths, List.range'_succ, ih]

theorem alookup_buildMonths_get (env : Env) (ts : List String) :
    ∀ i j, (hj : j < ts.length) →
      alookup (i + 1 + j) (buildMonths env i ts) =
        some (MonthData.mk (env.findPre (ts.get ⟨j, hj⟩)) (env.findWeekend (ts.get ⟨j, hj⟩))
          (env.findHoliday (ts.get ⟨j, hj⟩))) := by
  induction ts with
  | nil => intro i j hj; simp at hj
  | cons t rest ih =>
      intro i j hj
      match j with
      | 0 => simp [buildMonths, alookup]
      | j' + 1 =>
          have hne : i + 1 ≠ i + 1 + (j' + 1) := by omega
          have hj' : j' < rest.length := by simpa using Nat.lt_of_succ_lt_succ hj
          have := ih (i + 1) j' hj'
          simp only [buildMonths, alookup, hne, if_false]
          have harith : i + 1 + (j' + 1) = i + 1 + 1 + j' := by omega
          rw [harith]
          simpa using ih (i + 1) j' hj'

theorem alookup_buildMonths_of_gt (env : Env) (ts : List String) :
    ∀ i m, m > i + ts.length → alookup m (buildMonths env i ts) = none := by
  induction ts with
  | nil => intro i m _; simp [buildMonths, alookup]
  | cons t rest ih =>
      intro i m hm
      simp only [List.length_cons] at hm
      have hne : i + 1 ≠ m := by omega
      simp only [buildMonths, alookup, hne, if_false]
      exact ih (i + 1) m (by omega)

/-! ### Resolution-phase case lemmas -/

theorem get_year_data_file (env : Env) (st : CalState) (year : Nat) :
    (get_year_data env st year).1.file = st.file := by
  unfold get_year_data
  cases get_html env year with
  | error e => rfl
  | ok p =>
      rcases p with ⟨ho, log⟩
      cases ho with
      | none => rfl
      | some html => by_cases h : html = "" <;> simp [h]

theorem get_year_data_mem (env : Env) (st : CalState) (year : Nat) :
    ∃ yd, alookup year (get_year_data env st year).1.dict = some yd := by
  unfold get_year_data
  cases get_html env year with
  | error e => exact ⟨[], alookup_aset_self _ _ _⟩
  | ok p =>
      rcases p with ⟨ho, log⟩
      cases ho with
      | none => exact ⟨[], alookup_aset_self _ _ _⟩
      | some html =>
          by_cases h : html = ""
          · simp only [h, if_true]
            exact ⟨[], alookup_aset_self _ _ _⟩
          · simp only [h, if_false]
            exact ⟨_, alookup_aset_self _ _ _⟩

/-- When `__get_year_data` raises, the raise came from the unguarded body
read of line 73, before any table was parsed: the state it leaves behind is
the line-82 empty entry over an unchanged file. -/
theorem get_year_data_err_state (env : Env) (st : CalState) (year : Nat) (st2 : CalState)
    (e : String) (h : get_year_data env st year = (st2, some e)) :
    st2 = CalState.mk (aset year [] st.dict) st.file := by
  unfold get_year_data at h
  cases hh : get_html env year with
  | error e2 =>
      simp only [hh, Prod.mk.injEq] at h
      exact h.1.symm
  | ok p =>
      rcases p with ⟨ho, log⟩
      cases ho with
      | none =>
          simp only [hh, Prod.mk.injEq] at h
          exact absurd h.2 (by simp)
      | some html =>
          simp only [hh] at h
          by_cases he : html = ""
          · rw [if_pos he, Prod.mk.injEq] at h
            exact absurd h.2 (by simp)
          · rw [if_neg he, Prod.mk.injEq] at h
            exact absurd h.2 (by simp)

/-- `__read_cache_json` raises only when the cache file exists with invalid
content (`json.load` at line 153); the message is fixed. -/
theorem read_cache_json_error (st : CalState) (year : Nat) (e : String)
    (h : read_cache_json st year = .error e) :
    st.file = .malformed ∧ e = jsonDecodeError := by
  unfold read_cache_json at h
  cases hf : st.file with
  | absent =>
      rw [hf] at h
      exact absurd h (by simp)
  | malformed =>
      rw [hf] at h
      injection h with h2
      exact ⟨rfl, h2.symm⟩
  | stored data =>
      rw [hf] at h
      rcases hl : alookup year data with _ | yd
      · simp only [hl] at h
        exact absurd h (by simp)
      · simp only [hl] at h
        by_cases hemp : yd = []
        · rw [if_pos hemp] at h
          exact absurd h (by simp)
        · rw [if_neg hemp] at h
          exact absurd h (by simp)

/-- A cache hit promotes the year into `self._dict` (so the year is a key
of the returned state's dict) and leaves the file untouched. -/
theorem read_cache_json_true (st : CalState) (year : Nat) (st' : CalState)
    (h : read_cache_json st year = .ok (true, st')) :
    (∃ yd, alookup year st'.dict = some yd) ∧ st'.file = st.file := by
  unfold read_cache_json at h
  cases hf : st.file with
  | absent =>
      rw [hf] at h
      exact absurd h (by simp)
  | malformed =>
      rw [hf] at h
      exact absurd h (by simp)
  | stored data =>
      rw [hf] at h
      rcases hl : alookup year data with _ | yd
      · simp only [hl] at h
        exact absurd h (by simp)
      · simp only [hl] at h
        by_cases hemp : yd = []
        · rw [if_pos hemp] at h
          exact absurd h (by simp)
        · rw [if_neg hemp] at h
          have h' : CalState.mk (aset year yd st.dict) (.stored data) = st' := by
            injection h with h2
            injection h2 with _ h3
          constructor
          · exact ⟨yd, by rw [← h']; exact alookup_aset_self _ _ _⟩
          · rw [← h']

/-- A cache miss (`False`) leaves the state untouched and can only happen
when the file parsed (or was absent), never on a malformed file. -/
theorem read_cache_json_false (st : CalState) (year : Nat) (st' : CalState)
    (h : read_cache_json st year = .ok (false, st')) :
    st' = st ∧ st.file ≠ .malformed := by
  unfold read_cache_json at h
  cases hf : st.file with
  | absent =>
      rw [hf] at h
      have h' : st = st' := by
        injection h with h2
        injection h2 with _ h3
      exact ⟨h'.symm, by simp⟩
  | malformed =>
      rw [hf] at h
      exact absurd h (by simp)
  | stored data =>
      rw [hf] at h
      rcases hl : alookup year data with _ | yd
      · simp only [hl] at h
        have h' : st = st' := by
          injection h with h2
          injection h2 with _ h3
        exact ⟨h'.symm, by simp⟩
      · simp only [hl] at h
        by_cases hemp : yd = []
        · rw [if_pos hemp] at h
          have h' : st = st' := by
            injection h with h2
            injection h2 with _ h3
          exact ⟨h'.symm, by simp⟩
        · rw [if_neg hemp] at h
          exact absurd h (by simp)

/-- Shape of the post-miss fetch-and-persist block: either it succeeds and
the year is a key of the dict, or `__get_year_data` raised mid-read,
leaving the year mapped to the empty dict with the file unwritten. -/
theorem resolve_miss_shape (env : Env) (st : CalState) (year : Nat) (st1 : CalState)
    (o : Option String) (h : resolve_miss env st year = (st1, o))
    (hfile : st.file ≠ .malformed) :
    (o = none ∧ ∃ yd, alookup year st1.dict = some yd)
    ∨ (alookup year st1.dict = some [] ∧ st1.file = st.file ∧ ∃ e, o = some e) := by
  unfold resolve_miss at h
  rcases hg : get_year_data env st year with ⟨st2, oe⟩
  rw [hg] at h
  cases oe with
  | some e =>
      have h' : ((st2 : CalState), (some e : Option String)) = (st1, o) := h
      rw [Prod.mk.injEq] at h'
      have hst2 := get_year_data_err_state env st year st2 e hg
      refine Or.inr ⟨?_, ?_, e, h'.2.symm⟩
      · rw [← h'.1, hst2]
        exact alookup_aset_self _ _ _
      · rw [← h'.1, hst2]
  | none =>
      have hfile2 : st2.file = st.file := by
        have hgf := get_year_data_file env st year
        rw [hg] at hgf
        exact hgf
      cases hsf : st2.file with
      | malformed =>
          have : st.file = .malformed := by rw [← hfile2, hsf]
          exact absurd this hfile
      | absent =>
          simp only [write_cache_json, hsf] at h
          have h' : ((CalState.mk st2.dict (.stored st2.dict) : CalState),
              (none : Option String)) = (st1, o) := h
          rw [Prod.mk.injEq] at h'
          refine Or.inl ⟨h'.2.symm, ?_⟩
          obtain ⟨yd, hyd⟩ := get_year_data_mem env st year
          rw [hg] at hyd
          exact ⟨yd, by rw [← h'.1]; exact hyd⟩
      | stored data =>
          simp only [write_cache_json, hsf] at h
          have h' : ((CalState.mk st2.dict (.stored (aupdate data st2.dict)) : CalState),
              (none : Option String)) = (st1, o) := h
          rw [Prod.mk.injEq] at h'
          refine Or.inl ⟨h'.2.symm, ?_⟩
          obtain ⟨yd, hyd⟩ := get_year_data_mem env st year
          rw [hg] at hyd
          exact ⟨yd, by rw [← h'.1]; exact hyd⟩

/-- Shape of the whole resolution phase of lines 104-107: on success the
year is a key of the dict; otherwise either `__get_year_data` raised
mid-read (year mapped to the empty dict, file as before) or `json.load`
raised on a malformed cache file (state untouched). -/
theorem resolve_year_shape (env : Env) (st : CalState) (dt : PyDate) (st1 : CalState)
    (o : Option String) (h : resolve_year env st dt = (st1, o)) :
    (o = none ∧ ∃ yd, alookup dt.year st1.dict = some yd)
    ∨ (alookup dt.year st1.dict = some [] ∧ st1.file = st.file ∧ ∃ e, o = some e)
    ∨ (st1 = st ∧ st.file = .malformed ∧ alookup dt.year st.dict = none
        ∧ o = some jsonDecodeError) := by
  unfold resolve_year at h
  cases hy : alookup dt.year st.dict with
  | some yd =>
      rw [hy] at h
      rw [Prod.mk.injEq] at h
      exact Or.inl ⟨h.2.symm, yd, by rw [← h.1, hy]⟩
  | none =>
      rw [hy] at h
      rcases hrd : read_cache_json st dt.year with e | p
      · simp only [hrd] at h
        obtain ⟨hfm, hej⟩ := read_cache_json_error st dt.year e hrd
        rw [Prod.mk.injEq] at h
        exact Or.inr (Or.inr ⟨h.1.symm, hfm, rfl, by rw [← h.2, hej]⟩)
      · rcases p with ⟨b, st'⟩
        cases b with
        | false =>
            simp only [hrd] at h
            obtain ⟨hst', hnm⟩ := read_cache_json_false st dt.year st' hrd
            rw [hst'] at h
            rcases resolve_miss_shape env st dt.year st1 o h hnm with h1 | h2
            · exact Or.inl h1
            · exact Or.inr (Or.inl h2)
        | true =>
            simp only [hrd] at h
            rw [Prod.mk.injEq] at h
            obtain ⟨⟨yd, hyd⟩, hfile⟩ := read_cache_json_true st dt.year st' hrd
            exact Or.inl ⟨h.2.symm, yd, by rw [← h.1]; exact hyd⟩

/-- When the queried year is already a key of `self._dict`, `date_info`
performs no resolution at all and classifies straight from memory. -/
theorem date_info_of_mem (env : Env) (st : CalState) (dt : PyDate) (yd : YearData)
    (hy : alookup dt.year st.dict = some yd) :
    date_info env st dt =
      (st, match alookup dt.month yd with
        | none => .error "KeyError"
        | some md => .ok (classify_day md dt.day)) := by
  unfold date_info resolve_year
  simp only [hy]
  cases alookup dt.month yd <;> rfl

/-- A `urlopen` exception is caught: `__get_year_data` returns normally,
leaving `self._dict[year]` as the empty dict installed at line 82 and not
touching the cache file. -/
theorem get_year_data_fetch_fail (env : Env) (st : CalState) (year : Nat) (msg : String)
    (h : env.urlopen (year_url year) = .err msg) :
    get_year_data env st year = (CalState.mk (aset year [] st.dict) st.file, none) := by
  unfold get_year_data get_html
  rw [h]

/-- A body-read/decode exception is NOT caught: it propagates out of
`__get_year_data`, with the line-82 empty entry left behind and the cache
file untouched. -/
theorem get_year_data_read_fail (env : Env) (st : CalState) (year : Nat) (e : String)
    (h : env.urlopen (year_url year) = .ok (.error e)) :
    get_year_data env st year = (CalState.mk (aset year [] st.dict) st.file, some e) := by
  unfold get_year_data get_html
  rw [h]

/-- A fully fetched and decoded truthy document installs the extracted
months over the empty dict of line 82. -/
theorem get_year_data_fetch_ok (env : Env) (st : CalState) (year : Nat) (html : String)
    (h : env.urlopen (year_url year) = .ok (.ok html)) (hne : html ≠ "") :
    get_year_data env st year =
      (CalState.mk (aset year (buildMonths env 0 (env.findTables html)) (aset year [] st.dict))
        st.file, none) := by
  unfold get_year_data get_html
  rw [h]
  simp [hne]

/-- Every value `classify_day` can return is one of the four fixed flag
records of lines 109-118. -/
theorem classify_day_cases (md : MonthData) (d : Nat) :
    classify_day md d = DateInfo.mk true true false false
    ∨ classify_day md d = DateInfo.mk false false true true
    ∨ classify_day md d = DateInfo.mk false false false true
    ∨ classify_day md d = DateInfo.mk true false false false := by
  unfold classify_day
  split_ifs <;> simp

/-- A successful `date_info` answer is always produced by the precedence
block of lines 109-118. -/
theorem date_info_ok_classify (env : Env) (st : CalState) (dt : PyDate) (st1 : CalState)
    (di : DateInfo) (h : date_info env st dt = (st1, .ok di)) :
    ∃ md, di = classify_day md dt.day := by
  unfold date_info at h
  rcases hr : resolve_year env st dt with ⟨st2, o⟩
  cases o with
  | some e =>
      rw [hr] at h
      simp only [Prod.mk.injEq] at h
      exact absurd h.2 (by simp)
  | none =>
      rw [hr] at h
      cases hy : alookup dt.year st2.dict with
      | none =>
          simp only [hy, Prod.mk.injEq] at h
          exact absurd h.2 (by simp)
      | some yd =>
          simp only [hy] at h
          cases hm : alookup dt.month yd with
          | none =>
              simp only [hm, Prod.mk.injEq] at h
              exact absurd h.2 (by simp)
          | some md =>
              simp only [hm, Prod.mk.injEq] at h
              have := h.2
              simp only [Except.ok.injEq] at this
              exact ⟨md, this.symm⟩

/-- With the queried year absent from memory and a malformed cache file,
`date_info` propagates the `json.load` error and touches nothing. -/
theorem date_info_malformed (env : Env) (st : CalState) (dt : PyDate)
    (hy : alookup dt.year st.dict = none) (hf : st.file = .malformed) :
    date_info env st dt = (st, .error jsonDecodeError) := by
  have hread : read_cache_json st dt.year = .error jsonDecodeError := by
    unfold read_cache_json
    rw [hf]
  unfold date_info resolve_year
  simp only [hy, hread]

/-- Full outcome shape of one `date_info` call: either the year ends up in
memory and the result is either the precedence classification from that
year (possibly a month `KeyError`) or a mid-read fetch error over the empty
year entry; or the cache file was malformed and nothing changed. -/
theorem date_info_shape (env : Env) (st : CalState) (dt : PyDate) (st1 : CalState)
    (r : Except String DateInfo) (h : date_info env st dt = (st1, r)) :
    (∃ yd, alookup dt.year st1.dict = some yd ∧
       (r = (match alookup dt.month yd with
             | none => Except.error "KeyError"
             | some md => Except.ok (classify_day md dt.day))
        ∨ (yd = [] ∧ ∃ e, r = .error e)))
    ∨ (st1 = st ∧ st.file = .malformed ∧ alookup dt.year st.dict = none
        ∧ r = .error jsonDecodeError) := by
  unfold date_info at h
  rcases hr : resolve_year env st dt with ⟨st2, o⟩
  rcases resolve_year_shape env st dt st2 o hr with ⟨hon, yd, hyd⟩ | ⟨hyd, hfile, e, hoe⟩
    | ⟨hst, hfm, hlk, hoj⟩
  · subst hon
    rw [hr] at h
    simp only [hyd] at h
    rcases hm : alookup dt.month yd with _ | md
    · simp only [hm, Prod.mk.injEq] at h
      exact Or.inl ⟨yd, by rw [← h.1]; exact hyd, Or.inl (by rw [← h.2, hm])⟩
    · simp only [hm, Prod.mk.injEq] at h
      exact Or.inl ⟨yd, by rw [← h.1]; exact hyd, Or.inl (by rw [← h.2, hm])⟩
  · subst hoe
    rw [hr] at h
    have h' : ((st2 : CalState), (Except.error e : Except String DateInfo)) = (st1, r) := h
    rw [Prod.mk.injEq] at h'
    exact Or.inl ⟨[], by rw [← h'.1]; exact hyd, Or.inr ⟨rfl, e, h'.2.symm⟩⟩
  · subst hoj
    rw [hr] at h
    have h' : ((st2 : CalState), (Except.error jsonDecodeError : Except String DateInfo))
        = (st1, r) := h
    rw [Prod.mk.injEq] at h'
    exact Or.inr ⟨by rw [← h'.1]; exact hst, hfm, hlk, h'.2.symm⟩

/-- The January scenario of the specification: `pre_holidays = (8,)`,
`weekends = (1,...,9)`, `holidays = (1,...,7)`. -/
def janMD : MonthData := MonthData.mk [8] [1, 2, 3, 4, 5, 6, 7, 8, 9] [1, 2, 3, 4, 5, 6, 7]

/-- An environment whose `urlopen` always raises (the caught error path)
and whose patterns match nothing; used to instantiate theorems at concrete
inputs. -/
def envNone : Env :=
  Env.mk (fun _ => .err "urlopen failed") (fun _ => []) (fun _ => []) (fun _ => []) (fun _ => [])

/-- An environment whose `urlopen` succeeds but whose response body read
raises (the uncaught line-73 error path). -/
def envReadRaises : Env :=
  Env.mk (fun _ => .ok (.error "IncompleteRead")) (fun _ => []) (fun _ => []) (fun _ => [])
    (fun _ => [])

/-! ### Claims -/

/-- C1: for a date whose year and month are present in the resolved
YearData, `date_info` applies first-match-wins precedence to the day of
month: `pre_holidays` gives work+short (overriding any holiday or weekend
membership), then `holidays` gives holiday+weekend, then `weekends` gives
weekend only, else work only; on the January data
`pre_holidays={8}, holidays={1..7}, weekends={1..9}`, day 1 is
holiday+weekend, day 8 is work+short, day 9 is weekend only and day 10 is
work only. -/
theorem C1_precedence :
    (∀ (env : Env) (st : CalState) (dt : PyDate) (yd : YearData) (md : MonthData),
        alookup dt.year st.dict = some yd → alookup dt.month yd = some md →
        date_info env st dt = (st, .ok (classify_day md dt.day)))
    ∧ (∀ (md : MonthData) (d : Nat),
        (d ∈ md.pre_holidays →
          classify_day md d = DateInfo.mk true true false false)
        ∧ (d ∉ md.pre_holidays → d ∈ md.holidays →
          classify_day md d = DateInfo.mk false false true true)
        ∧ (d ∉ md.pre_holidays → d ∉ md.holidays → d ∈ md.weekends →
          classify_day md d = DateInfo.mk false false false true)
        ∧ (d ∉ md.pre_holidays → d ∉ md.holidays → d ∉ md.weekends →
          classify_day md d = DateInfo.mk true false false false))
    ∧ (classify_day janMD 1 = DateInfo.mk false false true true
        ∧ classify_day janMD 8 = DateInfo.mk true true false false
        ∧ classify_day janMD 9 = DateInfo.mk false false false true
        ∧ classify_day janMD 10 = DateInfo.mk true false false false) := by
  refine ⟨?_, ?_, by decide⟩
  · intro env st dt yd md hy hm
    rw [date_info_of_mem env st dt yd hy, hm]
  · intro md d
    refine ⟨?_, ?_, ?_, ?_⟩
    · intro h1
      simp [classify_day, h1]
    · intro h1 h2
      simp [classify_day, h1, h2]
    · intro h1 h2 h3
      simp [classify_day, h1, h2, h3]
    · intro h1 h2 h3
      simp [classify_day, h1, h2, h3]

/-- Witness for C1 at a concrete state: January day 8 of a cached year
classifies as a short workday. -/
theorem C1_witness :
    date_info envNone (CalState.mk [(2024, [(1, janMD)])] .absent) (PyDate.mk 2024 1 8)
      = (CalState.mk [(2024, [(1, janMD)])] .absent, .ok (DateInfo.mk true true false false)) := by
  have h := C1_precedence.1 envNone (CalState.mk [(2024, [(1, janMD)])] .absent)
    (PyDate.mk 2024 1 8) [(1, janMD)] janMD rfl rfl
  rw [h]
  have h8 := (C1_precedence.2.1 janMD 8).1 (by decide)
  rw [h8]

/-- C2: querying a month that is not a key of the resolved year data —
in particular any month of the empty year data left by a caught transport
failure — makes `date_info` raise a `KeyError` that propagates to the
caller; and when the fetch raises during the body read, that error
propagates instead; it never falls back to a default classification. -/
theorem C2_missing_month :
    (∀ (env : Env) (st : CalState) (dt : PyDate) (yd : YearData),
        alookup dt.year st.dict = some yd → alookup dt.month yd = none →
        date_info env st dt = (st, .error "KeyError"))
    ∧ (∀ (env : Env) (st : CalState) (dt : PyDate) (msg : String),
        alookup dt.year st.dict = none → st.file = .absent →
        env.urlopen (year_url dt.year) = .err msg →
        date_info env st dt =
          (CalState.mk (aset dt.year [] st.dict) (.stored (aset dt.year [] st.dict)),
            .error "KeyError"))
    ∧ (∀ (env : Env) (st : CalState) (dt : PyDate) (e : String),
        alookup dt.year st.dict = none → st.file = .absent →
        env.urlopen (year_url dt.year) = .ok (.error e) →
        date_info env st dt =
          (CalState.mk (aset dt.year [] st.dict) .absent, .error e)) := by
  refine ⟨?_, ?_, ?_⟩
  · intro env st dt yd hy hm
    rw [date_info_of_mem env st dt yd hy, hm]
  · intro env st dt msg hy hf hu
    have hread : read_cache_json st dt.year = .ok (false, st) := by
      unfold read_cache_json
      rw [hf]
    have hgyd := get_year_data_fetch_fail env st dt.year msg hu
    unfold date_info resolve_year resolve_miss
    simp only [hy, hread, hgyd, hf, write_cache_json, alookup_aset_self, alookup]
  · intro env st dt e hy hf hu
    have hread : read_cache_json st dt.year = .ok (false, st) := by
      unfold read_cache_json
      rw [hf]
    have hgyd := get_year_data_read_fail env st dt.year e hu
    unfold date_info resolve_year resolve_miss
    simp only [hy, hread, hgyd, hf]

/-- Witness for C2: with an empty in-memory dict, no cache file and a
failing transport, the query for 2024-01-15 raises. -/
theorem C2_witness :
    date_info envNone (CalState.mk [] .absent) (PyDate.mk 2024 1 15)
      = (CalState.mk [(2024, [])] (.stored [(2024, [])]), .error "KeyError") := by
  have h := C2_missing_month.2.1 envNone (CalState.mk [] .absent) (PyDate.mk 2024 1 15)
    "urlopen failed" rfl rfl rfl
  exact h

/-- C6: the claim says no exception ever crosses the fetch interface, and
`__get_html`'s own docstring promises `None` on error; but the `try` of
lines 67-71 guards only `urlopen`, so an exception raised by
`response.read().decode('utf-8')` at line 73 escapes `__get_html` — the
code contradicts the claim (and its docstring) on that path, while an
exception from `urlopen` itself is indeed caught, logged, and turned into
`None`. -/
theorem C6_code_bug_eval :
    get_html envReadRaises 2024 = .error "IncompleteRead"
    ∧ get_html envNone 2024 = .ok (none, ["urlopen failed"]) := ⟨rfl, rfl⟩

/-- C9: every classification `date_info` returns satisfies the invariant:
`is_holiday` implies `is_weekend`, and no result has both `is_holiday` and
`is_work` set. -/
theorem C9_invariant :
    ∀ (env : Env) (st : CalState) (dt : PyDate) (st1 : CalState) (di : DateInfo),
      date_info env st dt = (st1, .ok di) →
      (di.is_holiday = true → di.is_weekend = true)
      ∧ ¬(di.is_holiday = true ∧ di.is_work = true) := by
  intro env st dt st1 di h
  obtain ⟨md, hmd⟩ := date_info_ok_classify env st dt st1 di h
  subst hmd
  rcases classify_day_cases md dt.day with hc | hc | hc | hc <;> rw [hc] <;> simp

/-- Witness for C9 at a concrete successful query (January 1st, a holiday). -/
theorem C9_witness :
    ((DateInfo.mk false false true true).is_holiday = true →
      (DateInfo.mk false false true true).is_weekend = true)
    ∧ ¬((DateInfo.mk false false true true).is_holiday = true
        ∧ (DateInfo.mk false false true true).is_work = true) := by
  exact C9_invariant envNone (CalState.mk [(2024, [(1, janMD)])] .absent) (PyDate.mk 2024 1 1)
    (CalState.mk [(2024, [(1, janMD)])] .absent) (DateInfo.mk false false true true) rfl

/-- C3: each persisted write stores the whole current in-memory mapping
merged over the previously persisted one: years held in memory take their
in-memory data, all other persisted years keep their old data; hence
persisting year A and then year B in two separate writes, each holding only
that year in memory, yields a store containing both. -/
theorem C3_merge :
    (∀ (prior mem : Dict), (mem.map Prod.fst).Nodup →
        ∃ s, write_cache_json (CalState.mk mem (.stored prior)) = .ok (.stored s)
          ∧ (∀ y yd, alookup y mem = some yd → alookup y s = some yd)
          ∧ (∀ y, alookup y mem = none → alookup y s = alookup y prior))
    ∧ (∀ (A B : Nat) (ydA ydB : YearData), A ≠ B →
        write_cache_json (CalState.mk [(A, ydA)] .absent) = .ok (.stored [(A, ydA)])
        ∧ write_cache_json (CalState.mk [(B, ydB)] (.stored [(A, ydA)]))
            = .ok (.stored [(A, ydA), (B, ydB)])
        ∧ alookup A [(A, ydA), (B, ydB)] = some ydA
        ∧ alookup B [(A, ydA), (B, ydB)] = some ydB) := by
  constructor
  · intro prior mem hnd
    refine ⟨aupdate prior mem, rfl, ?_, ?_⟩
    · intro y yd hy
      exact alookup_aupdate_of_some prior hnd hy
    · intro y hy
      exact alookup_aupdate_of_none prior hy
  · intro A B ydA ydB hne
    have hAB : ¬(A = B) := hne
    refine ⟨rfl, ?_, ?_, ?_⟩
    · simp [write_cache_json, aupdate, aset, hAB]
    · simp [alookup]
    · simp [alookup, hAB]

/-- Witness for C3: persisting 2024 then 2025 keeps both years. -/
theorem C3_witness :
    write_cache_json (CalState.mk [(2025, [(2, janMD)])] (.stored [(2024, [(1, janMD)])]))
        = .ok (.stored [(2024, [(1, janMD)]), (2025, [(2, janMD)])])
    ∧ alookup 2024 [(2024, [(1, janMD)]), (2025, [(2, janMD)])] = some [(1, janMD)] := by
  have h := C3_merge.2 2024 2025 [(1, janMD)] [(2, janMD)] (by decide)
  exact ⟨h.2.1, h.2.2.1⟩

/-- C4: for a year with non-empty data, a persisted write followed by a
fresh instance's cache read returns `True` and promotes exactly the stored
YearData (same integer month keys, same day sets) into the fresh instance's
memory. -/
theorem C4_roundtrip :
    ∀ (y : Nat) (yd : YearData) (d : Dict) (file f1 : CacheFile),
      yd ≠ [] → (d.map Prod.fst).Nodup → alookup y d = some yd → file ≠ .malformed →
      write_cache_json (CalState.mk d file) = .ok f1 →
      read_cache_json (CalState.mk [] f1) y = .ok (true, CalState.mk [(y, yd)] f1) := by
  intro y yd d file f1 hne hnd hy hmal hw
  cases file with
  | malformed => exact absurd rfl hmal
  | absent =>
      simp only [write_cache_json] at hw
      injection hw with h
      subst h
      simp only [read_cache_json, hy]
      rw [if_neg hne]
      rfl
  | stored prior =>
      simp only [write_cache_json] at hw
      injection hw with h
      subst h
      simp only [read_cache_json, alookup_aupdate_of_some prior hnd hy]
      rw [if_neg hne]
      rfl

/-- Witness for C4: storing 2024's January then reading it back in a fresh
instance returns exactly the stored year data. -/
theorem C4_witness :
    read_cache_json (CalState.mk [] (.stored [(2024, [(1, janMD)])])) 2024
      = .ok (true, CalState.mk [(2024, [(1, janMD)])] (.stored [(2024, [(1, janMD)])])) := by
  exact C4_roundtrip 2024 [(1, janMD)] [(2024, [(1, janMD)])] .absent
    (.stored [(2024, [(1, janMD)])]) (by decide) (by decide) rfl (by decide) rfl

/-- C5 counterexample: with a fetch whose body read raises, the first call
for 2024-01-15 propagates `IncompleteRead` (leaving `{2024: {}}` in memory,
file unwritten), while the second call for the same date raises `KeyError`
instead — the two calls' outcomes differ, refuting "returns identical
results" as stated. -/
theorem C5_counterexample :
    date_info envReadRaises (CalState.mk [] .absent) (PyDate.mk 2024 1 15)
        = (CalState.mk [(2024, [])] .absent, .error "IncompleteRead")
    ∧ date_info envReadRaises (CalState.mk [(2024, [])] .absent) (PyDate.mk 2024 1 15)
        = (CalState.mk [(2024, [])] .absent, .error "KeyError")
    ∧ (Except.error "IncompleteRead" : Except String DateInfo) ≠ .error "KeyError" :=
  ⟨rfl, rfl, by simp⟩

/-- C5 amended: a second `date_info` call for the same date (no intervening
`pre_cache_json`) leaves the state unchanged and its outcome is the same
for every environment — in particular it performs no further network fetch,
the year key being in memory or the call failing before any fetch.  When
the first call returns a classification, the second call returns the
identical result and state; when the first call raised, the second raises
too (the same error, or the `KeyError` from the now-cached empty year when
the first call's fetch raised during the body read). -/
theorem C5_idempotent :
    ∀ (env : Env) (st : CalState) (dt : PyDate) (st1 : CalState) (r : Except String DateInfo),
      date_info env st dt = (st1, r) →
      (∀ env2 : Env, ∃ r2, date_info env2 st1 dt = (st1, r2))
      ∧ (∀ env2 env3 : Env, date_info env2 st1 dt = date_info env3 st1 dt)
      ∧ (∀ di, r = .ok di →
          (∀ env2 : Env, date_info env2 st1 dt = (st1, r))
          ∧ ∃ yd, alookup dt.year st1.dict = some yd)
      ∧ (∀ e, r = .error e → ∀ env2 : Env,
          date_info env2 st1 dt = (st1, r)
          ∨ date_info env2 st1 dt = (st1, .error "KeyError")) := by
  intro env st dt st1 r h
  rcases date_info_shape env st dt st1 r h with ⟨yd, hyd, hr⟩ | ⟨h1, h2, h3, h4⟩
  · have hsecond : ∀ env2 : Env, date_info env2 st1 dt =
        (st1, match alookup dt.month yd with
              | none => Except.error "KeyError"
              | some md => Except.ok (classify_day md dt.day)) :=
      fun env2 => date_info_of_mem env2 st1 dt yd hyd
    refine ⟨fun env2 => ⟨_, hsecond env2⟩,
      fun env2 env3 => by rw [hsecond env2, hsecond env3], ?_, ?_⟩
    · intro di hdi
      rcases hr with hr | ⟨hyd0, e, hre⟩
      · exact ⟨fun env2 => by rw [hsecond env2, ← hr], yd, hyd⟩
      · rw [hre] at hdi
        exact absurd hdi (by simp)
    · intro e hre env2
      rcases hr with hr | ⟨hyd0, e2, hre2⟩
      · left
        rw [hsecond env2, ← hr]
      · right
        rw [hsecond env2, hyd0]
        rfl
  · have hsecond : ∀ env2 : Env, date_info env2 st1 dt = (st1, .error jsonDecodeError) := by
      intro env2
      rw [h1]
      exact date_info_malformed env2 st dt h3 h2
    refine ⟨fun env2 => ⟨_, hsecond env2⟩,
      fun env2 env3 => by rw [hsecond env2, hsecond env3], ?_, ?_⟩
    · intro di hdi
      rw [h4] at hdi
      exact absurd hdi (by simp)
    · intro e hre env2
      left
      rw [h4]
      exact hsecond env2

/-- Witness for C5's amended statement: a concrete successful first call
whose result the theorem replays identically. -/
theorem C5_witness :
    date_info envNone (CalState.mk [(2024, [(1, janMD)])] .absent) (PyDate.mk 2024 1 9)
      = (CalState.mk [(2024, [(1, janMD)])] .absent,
          .ok (DateInfo.mk false false false true)) := by
  have h := C5_idempotent envNone (CalState.mk [(2024, [(1, janMD)])] .absent)
    (PyDate.mk 2024 1 9) (CalState.mk [(2024, [(1, janMD)])] .absent)
    (.ok (DateInfo.mk false false false true)) rfl
  exact (h.2.2.1 (DateInfo.mk false false false true) rfl).1 envNone

/-- C7: when the table pattern matches `k` table substrings of a fetched
truthy document, extraction assigns the N-th table in document order to
month N, yielding exactly the months `1..k` (months beyond `k` are simply
absent, with no error at extraction time), each month's sets being whatever
the three label patterns matched in its table — a pattern with no matches
giving the empty set. -/
theorem C7_extraction :
    ∀ (env : Env) (st : CalState) (year : Nat) (html : String),
      env.urlopen (year_url year) = .ok (.ok html) → html ≠ "" →
      ((get_year_data env st year).2 = none
      ∧ (get_year_data env st year).1.file = st.file
      ∧ alookup year (get_year_data env st year).1.dict
          = some (buildMonths env 0 (env.findTables html))
      ∧ (buildMonths env 0 (env.findTables html)).map Prod.fst
          = List.range' 1 (env.findTables html).length
      ∧ (∀ (j : Nat) (hj : j < (env.findTables html).length),
          alookup (j + 1) (buildMonths env 0 (env.findTables html))
            = some (MonthData.mk (env.findPre ((env.findTables html).get ⟨j, hj⟩))
                (env.findWeekend ((env.findTables html).get ⟨j, hj⟩))
                (env.findHoliday ((env.findTables html).get ⟨j, hj⟩))))
      ∧ (∀ m, (env.findTables html).length < m →
          alookup m (buildMonths env 0 (env.findTables html)) = none)) := by
  intro env st year html hu hne
  have hgyd := get_year_data_fetch_ok env st year html hu hne
  refine ⟨?_, ?_, ?_, ?_, ?_, ?_⟩
  · rw [hgyd]
  · rw [hgyd]
  · rw [hgyd]
    exact alookup_aset_self _ _ _
  · simpa using buildMonths_keys env (env.findTables html) 0
  · intro j hj
    have h0 := alookup_buildMonths_get env (env.findTables html) 0 j hj
    have harith : 0 + 1 + j = j + 1 := by omega
    rw [harith] at h0
    exact h0
  · intro m hm
    exact alookup_buildMonths_of_gt env (env.findTables html) 0 m (by omega)

/-- An environment whose transport serves a fixed document in which the
table pattern matches exactly two tables. -/
def envTwoTables : Env :=
  Env.mk (fun _ => .ok (.ok "doc")) (fun _ => ["a", "b"])
    (fun t => if t = "a" then [3] else []) (fun _ => [6, 7]) (fun _ => [])

/-- Witness for C7: with two matched tables the extracted year maps month 1
to the first table's sets. -/
theorem C7_witness :
    alookup 2024 (get_year_data envTwoTables (CalState.mk [] .absent) 2024).1.dict
      = some (buildMonths envTwoTables 0 (envTwoTables.findTables "doc")) := by
  have h := C7_extraction envTwoTables (CalState.mk [] .absent) 2024 "doc" rfl (by simp)
  exact h.2.2.1

/-- C8 counterexample: the cache file exists but is zero-length (not a
valid JSON value), the in-memory state holds one year; `__write_cache_json`
raises a parse error instead of succeeding, refuting the claim that a write
over an empty (zero-length) existing store succeeds. -/
theorem C8_counterexample :
    write_cache_json (CalState.mk [(2024, [(1, janMD)])] .malformed)
      = .error jsonDecodeError := rfl

/-- C8 amended: an absent cache file is created holding exactly the
in-memory mapping, and an existing store holding a valid empty mapping is
merged without error into exactly the in-memory mapping; but an existing
zero-length (JSON-invalid) file makes the write raise a parse error. -/
theorem C8_amended_write :
    (∀ d : Dict, write_cache_json (CalState.mk d .absent) = .ok (.stored d))
    ∧ (∀ d : Dict, (d.map Prod.fst).Nodup →
        write_cache_json (CalState.mk d (.stored [])) = .ok (.stored (aupdate [] d))
        ∧ ∀ y, alookup y (aupdate [] d) = alookup y d)
    ∧ (∀ d : Dict, write_cache_json (CalState.mk d .malformed) = .error jsonDecodeError) := by
  refine ⟨fun d => rfl, ?_, fun d => rfl⟩
  intro d hnd
  refine ⟨rfl, ?_⟩
  intro y
  cases hy : alookup y d with
  | some v => exact alookup_aupdate_of_some [] hnd hy
  | none =>
      rw [alookup_aupdate_of_none [] hy]
      rfl

/-- Witness for C8's amended statement: writing one year over a stored
empty mapping succeeds and the result holds exactly that year. -/
theorem C8_amended_witness :
    write_cache_json (CalState.mk [(2024, [(1, janMD)])] (.stored []))
        = .ok (.stored (aupdate [] [(2024, [(1, janMD)])]))
    ∧ alookup 2024 (aupdate ([] : Dict) [(2024, [(1, janMD)])])
        = alookup 2024 [(2024, [(1, janMD)])] := by
  have h := C8_amended_write.2.1 [(2024, [(1, janMD)])] (by decide)
  exact ⟨h.1, h.2 2024⟩

/-- C10: a persisted year entry that is an empty mapping (what a failed
fetch persists) is treated as absent by the cache read, so a fresh instance
re-fetches from the network and answers from the fresh data, while an
instance holding the empty year in memory does not re-fetch and fails the
lookup. -/
theorem C10_empty_persisted_year :
    (∀ (st : CalState) (y : Nat) (s : Dict), st.file = .stored s → alookup y s = some [] →
        read_cache_json st y = .ok (false, st))
    ∧ (∀ (env : Env) (s : Dict) (dt : PyDate) (html : String) (j : Nat),
        alookup dt.year s = some [] →
        env.urlopen (year_url dt.year) = .ok (.ok html) → html ≠ "" →
        ∀ (hj : j < (env.findTables html).length), dt.month = j + 1 →
        (date_info env (CalState.mk [] (.stored s)) dt).2 =
          .ok (classify_day
            (MonthData.mk (env.findPre ((env.findTables html).get ⟨j, hj⟩))
              (env.findWeekend ((env.findTables html).get ⟨j, hj⟩))
              (env.findHoliday ((env.findTables html).get ⟨j, hj⟩))) dt.day))
    ∧ (∀ (env : Env) (st : CalState) (dt : PyDate),
        alookup dt.year st.dict = some [] →
        date_info env st dt = (st, .error "KeyError")) := by
  refine ⟨?_, ?_, ?_⟩
  · intro st y s hf hy
    simp only [read_cache_json, hf, hy]
    rfl
  · intro env s dt html j hy hu hne hj hm
    have hread : read_cache_json (CalState.mk [] (.stored s)) dt.year
        = .ok (false, CalState.mk [] (.stored s)) := by
      simp only [read_cache_json, hy]
      rfl
    have hgyd := get_year_data_fetch_ok env (CalState.mk [] (.stored s)) dt.year html hu hne
    have hbm : alookup (j + 1) (buildMonths env 0 (env.findTables html))
        = some (MonthData.mk (env.findPre ((env.findTables html).get ⟨j, hj⟩))
            (env.findWeekend ((env.findTables html).get ⟨j, hj⟩))
            (env.findHoliday ((env.findTables html).get ⟨j, hj⟩))) := by
      have h0 := alookup_buildMonths_get env (env.findTables html) 0 j hj
      have harith : 0 + 1 + j = j + 1 := by omega
      rw [harith] at h0
      exact h0
    unfold date_info resolve_year resolve_miss
    simp only [alookup, hread, hgyd, write_cache_json, alookup_aset_self, hm, hbm]
  · intro env st dt hy
    rw [date_info_of_mem env st dt [] hy]
    rfl

/-- Witness for C10: a stored year mapped to zero months is reported as a
cache miss. -/
theorem C10_witness :
    read_cache_json (CalState.mk [] (.stored [(2024, [])])) 2024
      = .ok (false, CalState.mk [] (.stored [(2024, [])])) :=
  C10_empty_persisted_year.1 (CalState.mk [] (.stored [(2024, [])])) 2024 [(2024, [])] rfl rfl

end ProdCal
